import Mathlib

/-!
Shallow embedding of `google/cloud/bigtable/backup.py` (class `Backup`):
the backup-name regular expression `_BACKUP_NAME_RE`, the `Backup`
descriptor with its properties (`name`, `cluster`, `parent`,
`source_table`, `expire_time`, …), the classmethod `from_pb`, and the
operations `create`, `get`, `refresh`, `exists`, `update_expire_time`,
`is_ready`.  Remote calls go through an explicit oracle (`ApiResult`)
standing for the external table-admin client; Python exceptions become an
explicit error type carrying the exact argument strings the code passes
to the exception constructors.
-/

/-- A point in time.  `datetime.datetime` values and wire-level protobuf
timestamps are both modelled by this one type; the external helper
`_datetime_to_pb_timestamp` (from `google.cloud._helpers`, outside this
repository) is then the identity on the model. -/
structure Timestamp where
  seconds : Nat
deriving DecidableEq, Repr

/-- External helper `google.cloud._helpers._datetime_to_pb_timestamp`:
converts a datetime into its wire representation.  Both sides are the
single `Timestamp` model type, so the conversion is the identity. -/
def _datetime_to_pb_timestamp (dt : Timestamp) : Timestamp := dt

/-- `google.cloud.bigtable_admin_v2.gapic.enums.Backup.State`. -/
inductive BackupState where
  | state_not_specified
  | creating
  | ready
deriving DecidableEq, Repr

/-- A raised Python exception, by class and constructor arguments.
`valueError args` is `ValueError(*args)`; `notFound` is the
`google.cloud.exceptions.NotFound` raised by the admin client;
`apiError msg` is any other exception escaping the admin client;
`attributeError msg` is an `AttributeError` from dereferencing `None`. -/
inductive PyError where
  | valueError (args : List String)
  | notFound (msg : String)
  | apiError (msg : String)
  | attributeError (msg : String)
deriving DecidableEq, Repr

instance {ε α : Type} [DecidableEq ε] [DecidableEq α] :
    DecidableEq (Except ε α) := fun x y =>
  match x, y with
  | .error a, .error b =>
      if h : a = b then isTrue (by rw [h]) else isFalse (fun he => h (by injection he))
  | .ok a, .ok b =>
      if h : a = b then isTrue (by rw [h]) else isFalse (fun he => h (by injection he))
  | .error _, .ok _ => isFalse (fun he => Except.noConfusion he)
  | .ok _, .error _ => isFalse (fun he => Except.noConfusion he)

/-- Python truthiness of an optional string: `None` and `""` are falsy,
every non-empty string is truthy. -/
def truthyStr : Option String → Bool
  | none => false
  | some s => !s.data.isEmpty

/- ----------------------------------------------------------------
Character classes of `_BACKUP_NAME_RE`:

    ^projects/(?P<project>[^/]+)/
    instances/(?P<instance_id>[a-z][-a-z0-9]*)/
    clusters/(?P<cluster_id>[a-z][-a-z0-9]*)/
    backups/(?P<backup_id>[a-z][a-z0-9_\-]*[a-z0-9])$
---------------------------------------------------------------- -/

/-- `[a-z]`. -/
def isLowerAZ (c : Char) : Bool := 'a' ≤ c && c ≤ 'z'

/-- `[0-9]`. -/
def isDigit09 (c : Char) : Bool := '0' ≤ c && c ≤ '9'

/-- `[-a-z0-9]` (the class of instance and cluster id tails). -/
def isIdChar (c : Char) : Bool := c == '-' || isLowerAZ c || isDigit09 c

/-- `[a-z0-9_\-]` (the class of backup id middle characters). -/
def isBkChar (c : Char) : Bool := isLowerAZ c || isDigit09 c || c == '_' || c == '-'

/-- `[a-z0-9]` (the class of the final backup id character). -/
def isAlnumLower (c : Char) : Bool := isLowerAZ c || isDigit09 c

/-- `[a-z][-a-z0-9]*` matched against a whole character list. -/
def matchIdent : List Char → Bool
  | [] => false
  | c :: cs => isLowerAZ c && cs.all isIdChar

/-- `[a-z0-9_\-]*[a-z0-9]` matched against a whole character list:
non-empty, last character in `[a-z0-9]`, all others in `[a-z0-9_\-]`. -/
def matchBackupTail : List Char → Bool
  | [] => false
  | [c] => isAlnumLower c
  | c :: cs => isBkChar c && matchBackupTail cs

/-- `[a-z][a-z0-9_\-]*[a-z0-9]` matched against a whole character list. -/
def matchBackupId : List Char → Bool
  | [] => false
  | c :: cs => isLowerAZ c && matchBackupTail cs

/-- Consume a literal piece of the pattern from the front of the input. -/
def consumeLit : List Char → List Char → Option (List Char)
  | [], rest => some rest
  | _, [] => none
  | l :: ls, r :: rs => if l = r then consumeLit ls rs else none

/-- Split at the first `'/'`: returns the (possibly empty) run of
non-slash characters and the remainder beginning with the slash. -/
def splitSlash : List Char → List Char × List Char
  | [] => ([], [])
  | c :: cs =>
      if c = '/' then ([], c :: cs)
      else
        let p := splitSlash cs
        (c :: p.1, p.2)

/-- Python's `$` matches at the end of the string or just before one
trailing newline; this removes that optional trailing newline. -/
def dropFinalNewline (l : List Char) : List Char :=
  match l.getLast? with
  | some c => if c = '\n' then l.dropLast else l
  | none => l

/-- The four named groups captured by `_BACKUP_NAME_RE`. -/
structure BackupNameGroups where
  project : List Char
  instance_id : List Char
  cluster_id : List Char
  backup_id : List Char
deriving DecidableEq, Repr

/-- `_BACKUP_NAME_RE.match`: the regex is anchored on both sides and
every character class excludes `'/'`, so matching is equivalent to this
deterministic split.  `project` is the (non-empty) run up to the next
slash; `instance_id` and `cluster_id` are their slash-delimited segments,
each required to match `[a-z][-a-z0-9]*`; `backup_id` is the remainder
(less the one trailing newline `$` tolerates), required to match
`[a-z][a-z0-9_\-]*[a-z0-9]`. -/
def backupNameMatch (s : String) : Option BackupNameGroups :=
  match consumeLit "projects/".data s.data with
  | none => none
  | some r1 =>
    match splitSlash r1 with
    | (proj, r1') =>
      if proj.isEmpty then none
      else
        match consumeLit "/instances/".data r1' with
        | none => none
        | some r2 =>
          match splitSlash r2 with
          | (iid, r2') =>
            if !matchIdent iid then none
            else
              match consumeLit "/clusters/".data r2' with
              | none => none
              | some r3 =>
                match splitSlash r3 with
                | (cid, r3') =>
                  if !matchIdent cid then none
                  else
                    match consumeLit "/backups/".data r3' with
                    | none => none
                    | some r4 =>
                      if !matchBackupId (dropFinalNewline r4) then none
                      else some ⟨proj, iid, cid, dropFinalNewline r4⟩

/- ----------------------------------------------------------------
The instance context (class `Instance` from
`google/cloud/bigtable/instance.py`, not part of this source tree).
---------------------------------------------------------------- -/

/-- The owning client: exposes the project id. -/
structure Client where
  project : String
deriving DecidableEq, Repr

/-- Modelled from the spec: the instance context exposes `instance_id`,
the owning client (for the project id used during path parsing), and
`name`, the instance's canonical path; `instance.py` itself is not in
this source tree. -/
structure Instance where
  instance_id : String
  _client : Client
deriving DecidableEq, Repr

/-- Modelled from the spec: the instance's canonical path
`projects/.../instances/...` used as the prefix of every backup name. -/
def Instance.name (i : Instance) : String :=
  "projects/" ++ i._client.project ++ "/instances/" ++ i.instance_id

/- ----------------------------------------------------------------
The Backup descriptor.
---------------------------------------------------------------- -/

/-- The fields of one `Backup` object: the constructor arguments plus
the six attributes `__init__` initialises to `None` (the lazily-filled
`_parent` and `_source_table` caches and the server-populated fields). -/
structure Backup where
  backup_id : String
  _instance : Instance
  _cluster : Option String := none
  table_id : Option String := none
  _expire_time : Option Timestamp := none
  _parent : Option String := none
  _source_table : Option String := none
  _start_time : Option Timestamp := none
  _end_time : Option Timestamp := none
  _size_bytes : Option Int := none
  _state : Option BackupState := none
deriving DecidableEq, Repr

/-- Property `Backup.name`: raises
`ValueError('"cluster" parameter must be set')` when `self._cluster` is
falsy, else returns
`self._instance.name + "/clusters/" + cluster + "/backups/" + backup_id`. -/
def Backup.name (b : Backup) : Except PyError String :=
  if !truthyStr b._cluster then
    .error (.valueError ["\"cluster\" parameter must be set"])
  else
    .ok (b._instance.name ++ "/clusters/" ++ b._cluster.getD "" ++
      "/backups/" ++ b.backup_id)

/-- Property getter `Backup.cluster`. -/
def Backup.cluster (b : Backup) : Option String := b._cluster

/-- Property setter `Backup.cluster`: `self._cluster = cluster_id`. -/
def Backup.set_cluster (b : Backup) (cluster_id : Option String) : Backup :=
  { b with _cluster := cluster_id }

/-- Property `Backup.parent`: fills the `_parent` cache from
`self._instance.name + "/clusters/" + self._cluster` when the cache is
falsy and `_cluster` is truthy, then returns the cache.  Returns the
updated object together with the returned value. -/
def Backup.parent (b : Backup) : Backup × Option String :=
  let b' :=
    if !truthyStr b._parent && truthyStr b._cluster then
      { b with _parent := some (b._instance.name ++ "/clusters/" ++ b._cluster.getD "") }
    else b
  (b', b'._parent)

/-- Property `Backup.source_table`: fills the `_source_table` cache from
`self._instance.name + "/tables/" + self.table_id` when the cache is
falsy and `table_id` is truthy, then returns the cache. -/
def Backup.source_table (b : Backup) : Backup × Option String :=
  let b' :=
    if !truthyStr b._source_table && truthyStr b.table_id then
      { b with _source_table := some (b._instance.name ++ "/tables/" ++ b.table_id.getD "") }
    else b
  (b', b'._source_table)

/-- Property getter `Backup.expire_time`. -/
def Backup.expire_time (b : Backup) : Option Timestamp := b._expire_time

/-- Property getter `Backup.state`. -/
def Backup.state (b : Backup) : Option BackupState := b._state

/-- `Backup.is_ready`: `self._state == enums.Backup.State.READY`. -/
def Backup.is_ready (b : Backup) : Bool := b._state == some .ready

/-- `Backup.from_pb(backup_pb, instance)`, with `backup_pb.name` passed
as the string it matches against `_BACKUP_NAME_RE`.  Rejects a
non-matching name with `ValueError(msg, name)`, then compares the parsed
project with `instance._client.project` and the parsed instance id with
`instance.instance_id`, and on success returns `cls(backup_id, instance)`
— a descriptor with every optional field left at its default. -/
def Backup.from_pb (backup_pb_name : String) (inst : Instance) :
    Except PyError Backup :=
  match backupNameMatch backup_pb_name with
  | none =>
      .error (.valueError
        ["Backup protobuf name was not in the expected format.", backup_pb_name])
  | some groups =>
      if String.mk groups.project ≠ inst._client.project then
        .error (.valueError
          ["Project ID of the Backup does not match the Project ID of the instance's client"])
      else if String.mk groups.instance_id ≠ inst.instance_id then
        .error (.valueError
          ["Instance ID of the Backup does not match the Instance ID of the instance"])
      else
        .ok { backup_id := String.mk groups.backup_id, _instance := inst }

/- ----------------------------------------------------------------
Remote operations.  The external table-admin client is modelled by an
oracle value describing how its call would have behaved.
---------------------------------------------------------------- -/

/-- The server's protobuf representation of a backup, as returned by
`api.get_backup` (the fields `refresh` copies out of it). -/
structure BackupPb where
  source_table : Option String
  expire_time : Option Timestamp
  start_time : Option Timestamp
  end_time : Option Timestamp
  size_bytes : Option Int
  state : Option BackupState
deriving DecidableEq, Repr

/-- Outcome of one call on the external table-admin client: a returned
value, a raised `NotFound`, or any other raised exception. -/
inductive ApiResult (α : Type) where
  | ok (a : α)
  | notFound (msg : String)
  | otherError (msg : String)
deriving DecidableEq, Repr

/-- `Backup.get`: computes `self.name` (which may raise), calls
`api.get_backup(name)`, catches `NotFound` and returns `None` for it,
and lets every other exception propagate. -/
def Backup.get (b : Backup) (api : ApiResult BackupPb) :
    Except PyError (Option BackupPb) :=
  match b.name with
  | .error e => .error e
  | .ok _ =>
      match api with
      | .ok pb => .ok (some pb)
      | .notFound _ => .ok none
      | .otherError msg => .error (.apiError msg)

/-- `Backup.exists`: `self.get() is not None`. -/
def Backup.exists (b : Backup) (api : ApiResult BackupPb) :
    Except PyError Bool :=
  match b.get api with
  | .error e => .error e
  | .ok r => .ok r.isSome

/-- `Backup.refresh`: `backup = self.get()` then copies
`backup.source_table`, `backup.expire_time`, `backup.start_time`,
`backup.end_time`, `backup.size_bytes`, `backup.state` into the
descriptor's fields.  When `get` returned `None` the first attribute
access `backup.source_table` raises an `AttributeError` on `NoneType`
and no field is assigned.  Returns the descriptor after the call and the
call's outcome. -/
def Backup.refresh (b : Backup) (api : ApiResult BackupPb) :
    Backup × Except PyError Unit :=
  match b.get api with
  | .error e => (b, .error e)
  | .ok none =>
      (b, .error (.attributeError
        "'NoneType' object has no attribute 'source_table'"))
  | .ok (some pb) =>
      ({ b with
          _source_table := pb.source_table
          _expire_time := pb.expire_time
          _start_time := pb.start_time
          _end_time := pb.end_time
          _size_bytes := pb.size_bytes
          _state := pb.state }, .ok ())

/-- `Backup.update_expire_time(new_expire_time)`: computes `self.name`
(which may raise), issues `api.update_backup({name, expire_time},
{paths: ["expire_time"]})`, and only after that call returns does it run
`self._expire_time = new_expire_time`.  Returns the descriptor after the
call and the call's outcome. -/
def Backup.update_expire_time (b : Backup) (new_expire_time : Timestamp)
    (api : ApiResult Unit) : Backup × Except PyError Unit :=
  match b.name with
  | .error e => (b, .error e)
  | .ok _ =>
      match api with
      | .ok _ => ({ b with _expire_time := some new_expire_time }, .ok ())
      | .notFound msg => (b, .error (.notFound msg))
      | .otherError msg => (b, .error (.apiError msg))

/-- The arguments `Backup.create` passes to `api.create_backup(parent,
backup_id, backup)`, with `backup` the dict of `source_table` and the
wire-converted `expire_time`. -/
structure CreateBackupRequest where
  parent : Option String
  backup_id : String
  source_table : Option String
  expire_time : Timestamp
deriving DecidableEq, Repr

/-- `Backup.create(cluster_id=None)`: raises
`ValueError('"expire_time" parameter must be set')` when
`self._expire_time` is `None`, then
`ValueError('"table" parameter must be set')` when `self.table_id` is
falsy; then, if the `cluster_id` argument is truthy, assigns
`self._cluster = cluster_id`; then raises
`ValueError('"cluster" parameter must be set')` when `self._cluster` is
falsy.  Otherwise it builds the backup dict (evaluating the
`source_table` property, which may fill its cache), evaluates the
`parent` property (likewise), and issues the request.  Returns the
descriptor after the call and either the raised error or the issued
request. -/
def Backup.create (b : Backup) (cluster_id : Option String) :
    Backup × Except PyError CreateBackupRequest :=
  match b._expire_time with
  | none => (b, .error (.valueError ["\"expire_time\" parameter must be set"]))
  | some exp =>
      if !truthyStr b.table_id then
        (b, .error (.valueError ["\"table\" parameter must be set"]))
      else
        let b1 := if truthyStr cluster_id then { b with _cluster := cluster_id } else b
        if !truthyStr b1._cluster then
          (b1, .error (.valueError ["\"cluster\" parameter must be set"]))
        else
          let st := b1.source_table
          let pr := st.1.parent
          (pr.1, .ok
            { parent := pr.2
              backup_id := pr.1.backup_id
              source_table := st.2
              expire_time := _datetime_to_pb_timestamp exp })

/- ----------------------------------------------------------------
Parser lemmas.
---------------------------------------------------------------- -/

theorem consumeLit_append (l r : List Char) : consumeLit l (l ++ r) = some r := by
  induction l with
  | nil => simp [consumeLit]
  | cons c cs ih => simp [consumeLit, ih]

theorem splitSlash_append (l r : List Char) (h : ∀ c ∈ l, c ≠ '/') :
    splitSlash (l ++ '/' :: r) = (l, '/' :: r) := by
  induction l with
  | nil => simp [splitSlash]
  | cons c cs ih =>
      have hc : c ≠ '/' := h c (by simp)
      have ih' := ih (fun x hx => h x (List.mem_cons_of_mem _ hx))
      simp [splitSlash, hc, ih']

theorem isIdChar_ne_slash (c : Char) (h : isIdChar c = true) : c ≠ '/' := by
  intro he
  subst he
  exact absurd h (by decide)

theorem matchIdent_ne_slash (l : List Char) (h : matchIdent l = true) :
    ∀ c ∈ l, c ≠ '/' := by
  cases l with
  | nil => exact absurd h (by decide)
  | cons c cs =>
      simp only [matchIdent, Bool.and_eq_true, List.all_eq_true] at h
      intro x hx
      rcases List.mem_cons.mp hx with rfl | hmem
      · intro he
        rw [he] at h
        exact absurd h.1 (by decide)
      · exact isIdChar_ne_slash x (h.2 x hmem)

theorem matchIdent_ne_nil (l : List Char) (h : matchIdent l = true) : l ≠ [] := by
  intro he
  subst he
  exact absurd h (by decide)

theorem matchBackupTail_getLast (l : List Char) (h : matchBackupTail l = true) :
    ∃ c, l.getLast? = some c ∧ isAlnumLower c = true := by
  induction l with
  | nil => exact absurd h (by decide)
  | cons c cs ih =>
      cases cs with
      | nil =>
          refine ⟨c, by simp, ?_⟩
          simpa [matchBackupTail] using h
      | cons d ds =>
          simp only [matchBackupTail, Bool.and_eq_true] at h
          obtain ⟨c', hlast, halnum⟩ := ih h.2
          exact ⟨c', by rw [List.getLast?_cons_cons]; exact hlast, halnum⟩

theorem matchBackupId_dropFinalNewline (l : List Char) (h : matchBackupId l = true) :
    dropFinalNewline l = l := by
  cases l with
  | nil => exact absurd h (by decide)
  | cons c cs =>
      simp only [matchBackupId, Bool.and_eq_true] at h
      obtain ⟨c', hlast, halnum⟩ := matchBackupTail_getLast cs h.2
      have hne : c' ≠ '\n' := by
        intro he
        rw [he] at halnum
        exact absurd halnum (by decide)
      have hcs : cs ≠ [] := by
        intro he
        rw [he] at h
        exact absurd h.2 (by decide)
      have hlast' : (c :: cs).getLast? = some c' := by
        cases cs with
        | nil => exact absurd rfl hcs
        | cons d ds => rw [List.getLast?_cons_cons]; exact hlast
      unfold dropFinalNewline
      rw [hlast']
      simp [hne]

theorem matchBackupId_ne_nil (l : List Char) (h : matchBackupId l = true) : l ≠ [] := by
  intro he
  subst he
  exact absurd h (by decide)

theorem consumeLit_cons_append (c : Char) (l r : List Char) :
    consumeLit (c :: l) (c :: (l ++ r)) = some r := by
  simp [consumeLit, consumeLit_append]

theorem ne_nil_isEmpty_false (l : List Char) (h : l ≠ []) : l.isEmpty = false := by
  cases l with
  | nil => exact absurd rfl h
  | cons c cs => rfl

/-- A canonical path assembled from grammar-conforming components is
matched by `_BACKUP_NAME_RE`, and the four captured groups are exactly
the components. -/
theorem backupNameMatch_canonical
    (project instanceId clusterId backupId : String)
    (hp1 : project.data ≠ []) (hp2 : ∀ c ∈ project.data, c ≠ '/')
    (hi : matchIdent instanceId.data = true)
    (hc : matchIdent clusterId.data = true)
    (hb : matchBackupId backupId.data = true) :
    backupNameMatch ("projects/" ++ project ++ "/instances/" ++ instanceId ++
        "/clusters/" ++ clusterId ++ "/backups/" ++ backupId) =
      some ⟨project.data, instanceId.data, clusterId.data, backupId.data⟩ := by
  have e1 : "/instances/".data = '/' :: "instances/".data := rfl
  have e2 : "/clusters/".data = '/' :: "clusters/".data := rfl
  have e3 : "/backups/".data = '/' :: "backups/".data := rfl
  have hP : project.data.isEmpty = false := ne_nil_isEmpty_false _ hp1
  have hs : ("projects/" ++ project ++ "/instances/" ++ instanceId ++
      "/clusters/" ++ clusterId ++ "/backups/" ++ backupId).data =
      "projects/".data ++ (project.data ++ '/' :: ("instances/".data ++
        (instanceId.data ++ '/' :: ("clusters/".data ++
          (clusterId.data ++ '/' :: ("backups/".data ++ backupId.data)))))) := by
    simp [String.data_append, e1, e2, e3, List.append_assoc]
  have sp1 : ∀ r, splitSlash (project.data ++ '/' :: r) = (project.data, '/' :: r) :=
    fun r => splitSlash_append _ r hp2
  have sp2 : ∀ r, splitSlash (instanceId.data ++ '/' :: r) = (instanceId.data, '/' :: r) :=
    fun r => splitSlash_append _ r (matchIdent_ne_slash _ hi)
  have sp3 : ∀ r, splitSlash (clusterId.data ++ '/' :: r) = (clusterId.data, '/' :: r) :=
    fun r => splitSlash_append _ r (matchIdent_ne_slash _ hc)
  unfold backupNameMatch
  simp only [hs, consumeLit_append, sp1, hP, e1, e2, e3, consumeLit_cons_append,
    sp2, sp3, hi, hc, matchBackupId_dropFinalNewline _ hb, hb,
    Bool.not_true, Bool.false_eq_true, if_false]

/-- C1: for every project string without a slash and every `instanceId`,
`clusterId`, `backupId` matching the path grammar, parsing the string
produced by the `name` property with `from_pb` against the same instance
context succeeds and yields a descriptor whose `backup_id` equals the
original backup id. -/
theorem c1_name_from_pb_roundtrip
    (project instanceId clusterId backupId : String)
    (hp1 : project.data ≠ []) (hp2 : ∀ c ∈ project.data, c ≠ '/')
    (hi : matchIdent instanceId.data = true)
    (hc : matchIdent clusterId.data = true)
    (hb : matchBackupId backupId.data = true) :
    ∃ nm b',
      Backup.name { backup_id := backupId, _instance := ⟨instanceId, ⟨project⟩⟩, _cluster := some clusterId } = Except.ok nm ∧
      Backup.from_pb nm ⟨instanceId, ⟨project⟩⟩ = Except.ok b' ∧
      b'.backup_id = backupId := by
  have hmk : ∀ s : String, String.mk s.data = s := fun s => rfl
  have hct : truthyStr (some clusterId) = true := by
    simp [truthyStr, ne_nil_isEmpty_false _ (matchIdent_ne_nil _ hc)]
  refine ⟨"projects/" ++ project ++ "/instances/" ++ instanceId ++ "/clusters/" ++
      clusterId ++ "/backups/" ++ backupId,
    { backup_id := backupId, _instance := ⟨instanceId, ⟨project⟩⟩ }, ?_, ?_, rfl⟩
  · unfold Backup.name
    rw [hct]
    rfl
  · unfold Backup.from_pb
    rw [backupNameMatch_canonical project instanceId clusterId backupId hp1 hp2 hi hc hb]
    simp [hmk]

/-- C1 witness: the round trip evaluated at the concrete tuple
`("p", "i1", "c1", "b1")`. -/
theorem c1_name_from_pb_roundtrip_witness :
    ∃ nm b',
      Backup.name { backup_id := "b1", _instance := ⟨"i1", ⟨"p"⟩⟩, _cluster := some "c1" } = Except.ok nm ∧
      Backup.from_pb nm ⟨"i1", ⟨"p"⟩⟩ = Except.ok b' ∧
      b'.backup_id = "b1" :=
  c1_name_from_pb_roundtrip "p" "i1" "c1" "b1" (by decide) (by decide) (by decide)
    (by decide) (by decide)

/-- C7: `from_pb` rejects with the format `ValueError` the empty string,
a path missing the `backups/` segment, a path whose backup id has length
1, and a path with an uppercase letter in the instance id. -/
theorem c7_from_pb_rejects_nonmatching_paths :
    Backup.from_pb "" ⟨"i1", ⟨"p"⟩⟩ =
      Except.error (.valueError
        ["Backup protobuf name was not in the expected format.", ""]) ∧
    Backup.from_pb "projects/p/instances/i1/clusters/c1" ⟨"i1", ⟨"p"⟩⟩ =
      Except.error (.valueError
        ["Backup protobuf name was not in the expected format.",
         "projects/p/instances/i1/clusters/c1"]) ∧
    Backup.from_pb "projects/p/instances/i1/clusters/c1/backups/b" ⟨"i1", ⟨"p"⟩⟩ =
      Except.error (.valueError
        ["Backup protobuf name was not in the expected format.",
         "projects/p/instances/i1/clusters/c1/backups/b"]) ∧
    Backup.from_pb "projects/p/instances/I1/clusters/c1/backups/b1" ⟨"i1", ⟨"p"⟩⟩ =
      Except.error (.valueError
        ["Backup protobuf name was not in the expected format.",
         "projects/p/instances/I1/clusters/c1/backups/b1"]) := by
  refine ⟨?_, ?_, ?_, ?_⟩ <;> rfl

/-- C8: whenever `from_pb` succeeds, the returned descriptor has only
`backup_id` populated — `_cluster` (the cluster id parsed out of the
path is discarded), `table_id`, `_expire_time`, `_start_time`,
`_end_time`, `_size_bytes` and `_state` are all `none`, and `backup_id`
is the path's backup-id group. -/
theorem c8_from_pb_only_backup_id (nm : String) (inst : Instance) (b' : Backup)
    (h : Backup.from_pb nm inst = Except.ok b') :
    b'._cluster = none ∧ b'.table_id = none ∧ b'._expire_time = none ∧
    b'._start_time = none ∧ b'._end_time = none ∧ b'._size_bytes = none ∧
    b'._state = none ∧
    ∃ g, backupNameMatch nm = some g ∧ b'.backup_id = String.mk g.backup_id := by
  unfold Backup.from_pb at h
  split at h
  · exact Except.noConfusion h
  · rename_i g hm
    split at h
    · exact Except.noConfusion h
    · split at h
      · exact Except.noConfusion h
      · injection h with h3
        subst h3
        exact ⟨rfl, rfl, rfl, rfl, rfl, rfl, rfl, g, hm, rfl⟩

/-- C8 witness: parsing
`projects/p/instances/i1/clusters/c1/backups/b1` against the matching
instance context yields a descriptor with only `backup_id = "b1"`. -/
theorem c8_from_pb_only_backup_id_witness :
    ({ backup_id := "b1", _instance := ⟨"i1", ⟨"p"⟩⟩ } : Backup)._cluster = none ∧
    ({ backup_id := "b1", _instance := ⟨"i1", ⟨"p"⟩⟩ } : Backup).table_id = none ∧
    ({ backup_id := "b1", _instance := ⟨"i1", ⟨"p"⟩⟩ } : Backup)._expire_time = none ∧
    ({ backup_id := "b1", _instance := ⟨"i1", ⟨"p"⟩⟩ } : Backup)._start_time = none ∧
    ({ backup_id := "b1", _instance := ⟨"i1", ⟨"p"⟩⟩ } : Backup)._end_time = none ∧
    ({ backup_id := "b1", _instance := ⟨"i1", ⟨"p"⟩⟩ } : Backup)._size_bytes = none ∧
    ({ backup_id := "b1", _instance := ⟨"i1", ⟨"p"⟩⟩ } : Backup)._state = none ∧
    ∃ g, backupNameMatch "projects/p/instances/i1/clusters/c1/backups/b1" = some g ∧
      ({ backup_id := "b1", _instance := ⟨"i1", ⟨"p"⟩⟩ } : Backup).backup_id = String.mk g.backup_id :=
  c8_from_pb_only_backup_id "projects/p/instances/i1/clusters/c1/backups/b1"
    ⟨"i1", ⟨"p"⟩⟩ { backup_id := "b1", _instance := ⟨"i1", ⟨"p"⟩⟩ } (by decide)

/-- C3: a grammar-matching path whose project differs from the expected
instance's project, or whose instance id differs from the expected
instance id, makes `from_pb` raise the corresponding mismatch
`ValueError`, and both mismatch errors differ from the format
`ValueError` raised for any path that does not match the grammar. -/
theorem c3_mismatch_distinct_from_format (inst : Instance)
    (nm1 nm2 nm3 : String) (g1 g2 : BackupNameGroups)
    (h1 : backupNameMatch nm1 = some g1)
    (hp1 : String.mk g1.project ≠ inst._client.project)
    (h2 : backupNameMatch nm2 = some g2)
    (hp2 : String.mk g2.project = inst._client.project)
    (hi2 : String.mk g2.instance_id ≠ inst.instance_id)
    (h3 : backupNameMatch nm3 = none) :
    Backup.from_pb nm1 inst = Except.error (.valueError
      ["Project ID of the Backup does not match the Project ID of the instance's client"]) ∧
    Backup.from_pb nm2 inst = Except.error (.valueError
      ["Instance ID of the Backup does not match the Instance ID of the instance"]) ∧
    Backup.from_pb nm3 inst = Except.error (.valueError
      ["Backup protobuf name was not in the expected format.", nm3]) ∧
    PyError.valueError
      ["Project ID of the Backup does not match the Project ID of the instance's client"] ≠
      PyError.valueError ["Backup protobuf name was not in the expected format.", nm3] ∧
    PyError.valueError
      ["Instance ID of the Backup does not match the Instance ID of the instance"] ≠
      PyError.valueError ["Backup protobuf name was not in the expected format.", nm3] := by
  refine ⟨?_, ?_, ?_, ?_, ?_⟩
  · unfold Backup.from_pb
    rw [h1]
    dsimp only
    rw [if_pos hp1]
  · unfold Backup.from_pb
    rw [h2]
    dsimp only
    rw [if_neg (fun hne => hne hp2), if_pos hi2]
  · unfold Backup.from_pb
    rw [h3]
  · intro he
    injection he with hl
    injection hl with hh
    exact absurd hh (by decide)
  · intro he
    injection he with hl
    injection hl with hh
    exact absurd hh (by decide)

/-- C3 witness: concrete project-mismatch, instance-mismatch and
format-error inputs against the context `(project "p", instance "i1")`. -/
theorem c3_mismatch_distinct_from_format_witness :
    Backup.from_pb "projects/q/instances/i1/clusters/c1/backups/b1" ⟨"i1", ⟨"p"⟩⟩ =
      Except.error (.valueError
        ["Project ID of the Backup does not match the Project ID of the instance's client"]) ∧
    Backup.from_pb "projects/p/instances/i2/clusters/c1/backups/b1" ⟨"i1", ⟨"p"⟩⟩ =
      Except.error (.valueError
        ["Instance ID of the Backup does not match the Instance ID of the instance"]) ∧
    Backup.from_pb "not-a-path" ⟨"i1", ⟨"p"⟩⟩ =
      Except.error (.valueError
        ["Backup protobuf name was not in the expected format.", "not-a-path"]) ∧
    PyError.valueError
      ["Project ID of the Backup does not match the Project ID of the instance's client"] ≠
      PyError.valueError ["Backup protobuf name was not in the expected format.", "not-a-path"] ∧
    PyError.valueError
      ["Instance ID of the Backup does not match the Instance ID of the instance"] ≠
      PyError.valueError ["Backup protobuf name was not in the expected format.", "not-a-path"] :=
  c3_mismatch_distinct_from_format ⟨"i1", ⟨"p"⟩⟩
    "projects/q/instances/i1/clusters/c1/backups/b1"
    "projects/p/instances/i2/clusters/c1/backups/b1"
    "not-a-path" ⟨"q".data, "i1".data, "c1".data, "b1".data⟩
    ⟨"p".data, "i2".data, "c1".data, "b1".data⟩
    (by decide) (by decide) (by decide) (by decide) (by decide) (by decide)

/-- When the stored cluster is truthy, the `name` property returns the
canonical backup path. -/
theorem name_ok_of_truthy_cluster (b : Backup) (hcl : truthyStr b._cluster = true) :
    Backup.name b = Except.ok (b._instance.name ++ "/clusters/" ++
      b._cluster.getD "" ++ "/backups/" ++ b.backup_id) := by
  unfold Backup.name
  rw [hcl]
  rfl

/-- C4: `update_expire_time` is atomic with respect to local state: when
the admin client's `update_backup` call raises, the returned descriptor
is the unchanged input (in particular `_expire_time` is untouched) and
the error propagates; `_expire_time` is set to the new value only in the
successful-return case. -/
theorem c4_update_expire_time_atomic (b : Backup) (t : Timestamp)
    (hcl : truthyStr b._cluster = true) :
    (∀ msg, Backup.update_expire_time b t (.otherError msg) =
      (b, Except.error (.apiError msg))) ∧
    (∀ msg, Backup.update_expire_time b t (.notFound msg) =
      (b, Except.error (.notFound msg))) ∧
    Backup.update_expire_time b t (.ok ()) =
      ({ b with _expire_time := some t }, Except.ok ()) := by
  unfold Backup.update_expire_time
  rw [name_ok_of_truthy_cluster b hcl]
  exact ⟨fun msg => rfl, fun msg => rfl, rfl⟩

/-- C4 witness: a concrete descriptor with `_expire_time = 5`; a failing
call leaves 5 in place, a successful call stores 9. -/
theorem c4_update_expire_time_atomic_witness :
    (Backup.update_expire_time { backup_id := "b1", _instance := ⟨"i1", ⟨"p"⟩⟩, _cluster := some "c1", _expire_time := some ⟨5⟩ } ⟨9⟩ (.otherError "boom") =
      ({ backup_id := "b1", _instance := ⟨"i1", ⟨"p"⟩⟩, _cluster := some "c1", _expire_time := some ⟨5⟩ }, Except.error (.apiError "boom"))) ∧
    (Backup.update_expire_time { backup_id := "b1", _instance := ⟨"i1", ⟨"p"⟩⟩, _cluster := some "c1", _expire_time := some ⟨5⟩ } ⟨9⟩ (.notFound "gone") =
      ({ backup_id := "b1", _instance := ⟨"i1", ⟨"p"⟩⟩, _cluster := some "c1", _expire_time := some ⟨5⟩ }, Except.error (.notFound "gone"))) ∧
    Backup.update_expire_time { backup_id := "b1", _instance := ⟨"i1", ⟨"p"⟩⟩, _cluster := some "c1", _expire_time := some ⟨5⟩ } ⟨9⟩ (.ok ()) =
      ({ backup_id := "b1", _instance := ⟨"i1", ⟨"p"⟩⟩, _cluster := some "c1", _expire_time := some ⟨9⟩ }, Except.ok ()) := by
  have h := c4_update_expire_time_atomic
    { backup_id := "b1", _instance := ⟨"i1", ⟨"p"⟩⟩, _cluster := some "c1", _expire_time := some ⟨5⟩ } ⟨9⟩ (by decide)
  exact ⟨h.1 "boom", h.2.1 "gone", h.2.2⟩

/-- C5 (the descriptor's cluster being "set" is Python truthiness, the
source's `if not self._cluster` test): `get` returns `None` when the
admin client raises `NotFound`, propagates every other failure
unchanged, and `exists` returns `True` exactly when `get` returns a
non-`None` value (and propagates `get`'s errors). -/
theorem c5_get_not_found_absent (b : Backup) (hcl : truthyStr b._cluster = true) :
    (∀ msg, Backup.get b (.notFound msg) = Except.ok none) ∧
    (∀ msg, Backup.get b (.otherError msg) = Except.error (.apiError msg)) ∧
    (∀ api r, Backup.get b api = Except.ok r →
      (Backup.exists b api = Except.ok true ↔ r ≠ none)) ∧
    (∀ api e, Backup.get b api = Except.error e → Backup.exists b api = Except.error e) := by
  have hn := name_ok_of_truthy_cluster b hcl
  refine ⟨fun msg => ?_, fun msg => ?_, fun api r hr => ?_, fun api e he => ?_⟩
  · unfold Backup.get
    rw [hn]
  · unfold Backup.get
    rw [hn]
  · unfold Backup.exists
    rw [hr]
    cases r with
    | none => simp
    | some pb => simp
  · unfold Backup.exists
    rw [he]

/-- C5 witness: concrete descriptor; `NotFound` becomes `None`, an
unrelated failure propagates, and `exists` mirrors a successful `get`. -/
theorem c5_get_not_found_absent_witness :
    Backup.get { backup_id := "b1", _instance := ⟨"i1", ⟨"p"⟩⟩, _cluster := some "c1" } (.notFound "gone") = Except.ok none ∧
    Backup.get { backup_id := "b1", _instance := ⟨"i1", ⟨"p"⟩⟩, _cluster := some "c1" } (.otherError "boom") = Except.error (.apiError "boom") ∧
    (Backup.exists { backup_id := "b1", _instance := ⟨"i1", ⟨"p"⟩⟩, _cluster := some "c1" } (.ok ⟨some "t", none, none, none, none, none⟩) = Except.ok true ↔
      (some (⟨some "t", none, none, none, none, none⟩ : BackupPb) ≠ none)) := by
  have h := c5_get_not_found_absent
    { backup_id := "b1", _instance := ⟨"i1", ⟨"p"⟩⟩, _cluster := some "c1" } (by decide)
  exact ⟨h.1 "gone", h.2.1 "boom",
    h.2.2.1 (.ok ⟨some "t", none, none, none, none, none⟩) (some ⟨some "t", none, none, none, none, none⟩) (by decide)⟩

/-- C9: whenever `get` returns an absent value, `refresh` dereferences
`None` and raises `AttributeError` instead of a defined not-found
failure, leaving the descriptor unchanged. -/
theorem c9_refresh_absent_attribute_error (b : Backup) (api : ApiResult BackupPb)
    (hget : Backup.get b api = Except.ok none) :
    Backup.refresh b api =
      (b, Except.error (.attributeError
        "'NoneType' object has no attribute 'source_table'")) := by
  unfold Backup.refresh
  rw [hget]

/-- C9 witness: refreshing a concrete descriptor whose backup the admin
client reports as not found raises the `AttributeError`. -/
theorem c9_refresh_absent_attribute_error_witness :
    Backup.refresh { backup_id := "b1", _instance := ⟨"i1", ⟨"p"⟩⟩, _cluster := some "c1" } (.notFound "gone") =
      ({ backup_id := "b1", _instance := ⟨"i1", ⟨"p"⟩⟩, _cluster := some "c1" },
        Except.error (.attributeError "'NoneType' object has no attribute 'source_table'")) :=
  c9_refresh_absent_attribute_error
    { backup_id := "b1", _instance := ⟨"i1", ⟨"p"⟩⟩, _cluster := some "c1" }
    (.notFound "gone") (by decide)

/-- A non-empty string has a non-empty character list. -/
theorem string_data_ne_nil_of_ne (s : String) (h : s ≠ "") : s.data ≠ [] := by
  intro hd
  apply h
  cases s with
  | mk d =>
      simp only at hd
      subst hd
      rfl

/-- C6 (with "unset" read as Python-falsy, the source's
`if not self._cluster` test): when the stored cluster is falsy the
`name` property raises the `ValueError` rather than silently producing a
path, and when the cluster is set to a non-empty string the name is the
instance path followed by `/clusters/{cluster}/backups/{backup_id}`. -/
theorem c6_name_requires_cluster (b : Backup) :
    (truthyStr b._cluster = false →
      Backup.name b = Except.error (.valueError ["\"cluster\" parameter must be set"])) ∧
    (∀ c, b._cluster = some c → c ≠ "" →
      Backup.name b = Except.ok (Instance.name b._instance ++ "/clusters/" ++ c ++
        "/backups/" ++ b.backup_id)) := by
  constructor
  · intro hf
    unfold Backup.name
    rw [hf]
    rfl
  · intro c hc hne
    have ht : truthyStr b._cluster = true := by
      rw [hc]
      simp [truthyStr, ne_nil_isEmpty_false _ (string_data_ne_nil_of_ne c hne)]
    rw [name_ok_of_truthy_cluster b ht, hc]
    rfl

/-- C6 witness: a descriptor without a cluster raises; one with cluster
`c1` yields the canonical path. -/
theorem c6_name_requires_cluster_witness :
    Backup.name { backup_id := "b1", _instance := ⟨"i1", ⟨"p"⟩⟩ } =
      Except.error (.valueError ["\"cluster\" parameter must be set"]) ∧
    Backup.name { backup_id := "b1", _instance := ⟨"i1", ⟨"p"⟩⟩, _cluster := some "c1" } =
      Except.ok (Instance.name ⟨"i1", ⟨"p"⟩⟩ ++ "/clusters/" ++ "c1" ++ "/backups/" ++ "b1") :=
  ⟨(c6_name_requires_cluster { backup_id := "b1", _instance := ⟨"i1", ⟨"p"⟩⟩ }).1 rfl,
   (c6_name_requires_cluster { backup_id := "b1", _instance := ⟨"i1", ⟨"p"⟩⟩, _cluster := some "c1" }).2 "c1" rfl (by decide)⟩

/-- Evaluating the `parent` property never changes `_cluster`. -/
theorem parent_preserves_cluster (x : Backup) :
    (Backup.parent x).1._cluster = x._cluster := by
  unfold Backup.parent
  dsimp only
  split <;> rfl

/-- Evaluating the `source_table` property never changes `_cluster`. -/
theorem source_table_preserves_cluster (x : Backup) :
    (Backup.source_table x).1._cluster = x._cluster := by
  unfold Backup.source_table
  dsimp only
  split <;> rfl

/-- C2: `create` validates `expire_time`, then `table_id`, then the
effective cluster, in that order, raising three pairwise-distinct
`ValueError`s each naming its missing field, each independently
triggerable; and a truthy `cluster_id` argument overwrites the stored
`_cluster` field before the request is issued. -/
theorem c2_create_validation_order (b : Backup) (cid : Option String) :
    (b._expire_time = none →
      Backup.create b cid =
        (b, Except.error (.valueError ["\"expire_time\" parameter must be set"]))) ∧
    (b._expire_time ≠ none → truthyStr b.table_id = false →
      Backup.create b cid =
        (b, Except.error (.valueError ["\"table\" parameter must be set"]))) ∧
    (b._expire_time ≠ none → truthyStr b.table_id = true →
      truthyStr cid = false → truthyStr b._cluster = false →
      Backup.create b cid =
        (b, Except.error (.valueError ["\"cluster\" parameter must be set"]))) ∧
    (b._expire_time ≠ none → truthyStr b.table_id = true → truthyStr cid = true →
      (Backup.create b cid).1._cluster = cid ∧
      ∃ req, (Backup.create b cid).2 = Except.ok req) ∧
    (PyError.valueError ["\"expire_time\" parameter must be set"] ≠
      PyError.valueError ["\"table\" parameter must be set"]) ∧
    (PyError.valueError ["\"expire_time\" parameter must be set"] ≠
      PyError.valueError ["\"cluster\" parameter must be set"]) ∧
    (PyError.valueError ["\"table\" parameter must be set"] ≠
      PyError.valueError ["\"cluster\" parameter must be set"]) := by
  refine ⟨?_, ?_, ?_, ?_, by decide, by decide, by decide⟩
  · intro h
    unfold Backup.create
    rw [h]
  · intro hne htab
    obtain ⟨t, ht⟩ := Option.ne_none_iff_exists'.mp hne
    simp only [Backup.create, ht, htab, Bool.not_false, if_true]
  · intro hne htab hcid hclu
    obtain ⟨t, ht⟩ := Option.ne_none_iff_exists'.mp hne
    simp only [Backup.create, ht, htab, hcid, hclu, Bool.not_false, Bool.not_true,
      if_true, if_false, Bool.false_eq_true, ite_false]
  · intro hne htab hcid
    obtain ⟨t, ht⟩ := Option.ne_none_iff_exists'.mp hne
    have hb1 : truthyStr ({ b with _cluster := cid } : Backup)._cluster = true := hcid
    constructor
    · simp only [Backup.create, ht, htab, hcid, hb1, Bool.not_true, if_true,
        Bool.false_eq_true, ite_false, if_false]
      rw [parent_preserves_cluster, source_table_preserves_cluster]
    · simp only [Backup.create, ht, htab, hcid, hb1, Bool.not_true, if_true,
        Bool.false_eq_true, ite_false, if_false]
      exact ⟨_, rfl⟩

/-- C2 witness: three concrete descriptors each missing exactly one of
the three fields trigger their own error, and a supplied `cluster_id`
of `c2` lands in the issued request's state. -/
theorem c2_create_validation_order_witness :
    Backup.create { backup_id := "b1", _instance := ⟨"i1", ⟨"p"⟩⟩, _cluster := some "c1", table_id := some "t1" } none =
      ({ backup_id := "b1", _instance := ⟨"i1", ⟨"p"⟩⟩, _cluster := some "c1", table_id := some "t1" },
        Except.error (.valueError ["\"expire_time\" parameter must be set"])) ∧
    Backup.create { backup_id := "b1", _instance := ⟨"i1", ⟨"p"⟩⟩, _cluster := some "c1", _expire_time := some ⟨1⟩ } none =
      ({ backup_id := "b1", _instance := ⟨"i1", ⟨"p"⟩⟩, _cluster := some "c1", _expire_time := some ⟨1⟩ },
        Except.error (.valueError ["\"table\" parameter must be set"])) ∧
    Backup.create { backup_id := "b1", _instance := ⟨"i1", ⟨"p"⟩⟩, table_id := some "t1", _expire_time := some ⟨1⟩ } none =
      ({ backup_id := "b1", _instance := ⟨"i1", ⟨"p"⟩⟩, table_id := some "t1", _expire_time := some ⟨1⟩ },
        Except.error (.valueError ["\"cluster\" parameter must be set"])) ∧
    (Backup.create { backup_id := "b1", _instance := ⟨"i1", ⟨"p"⟩⟩, _cluster := some "c1", table_id := some "t1", _expire_time := some ⟨1⟩ } (some "c2")).1._cluster = some "c2" ∧
    ∃ req, (Backup.create { backup_id := "b1", _instance := ⟨"i1", ⟨"p"⟩⟩, _cluster := some "c1", table_id := some "t1", _expire_time := some ⟨1⟩ } (some "c2")).2 = Except.ok req := by
  refine ⟨(c2_create_validation_order _ none).1 rfl,
    (c2_create_validation_order _ none).2.1 (by decide) (by decide),
    (c2_create_validation_order _ none).2.2.1 (by decide) (by decide) (by decide) (by decide),
    ?_, ?_⟩
  · exact ((c2_create_validation_order _ (some "c2")).2.2.2.1 (by decide) (by decide) (by decide)).1
  · exact ((c2_create_validation_order _ (some "c2")).2.2.2.1 (by decide) (by decide) (by decide)).2

/-- Appending to a string with a non-empty character list keeps it
non-empty. -/
theorem append_data_ne_nil (a b : String) (h : a.data ≠ []) : (a ++ b).data ≠ [] := by
  rw [String.data_append]
  intro he
  exact h (List.append_eq_nil.mp he).1

/-- An instance's canonical path is never the empty string. -/
theorem instance_name_data_ne_nil (i : Instance) : (Instance.name i).data ≠ [] := by
  unfold Instance.name
  apply append_data_ne_nil
  apply append_data_ne_nil
  apply append_data_ne_nil
  decide

/-- C10: `parent` and `source_table` are lazily cached with no
invalidation — after `parent` is first read with cluster `c1`, assigning
cluster `c2` and reading `parent` again still yields the path built from
`c1` while `name` yields the path built from `c2`; likewise
`source_table` keeps returning the path built from the original `t1`
after `table_id` is reassigned to `t2`. -/
theorem c10_lazy_caches_never_invalidated (inst : Instance) (bid c1 c2 t1 t2 : String)
    (hc1 : c1 ≠ "") (hc2 : c2 ≠ "") (ht1 : t1 ≠ "") :
    (Backup.parent { backup_id := bid, _instance := inst, _cluster := some c1 }).2 =
      some (inst.name ++ "/clusters/" ++ c1) ∧
    (Backup.parent (Backup.set_cluster
        (Backup.parent { backup_id := bid, _instance := inst, _cluster := some c1 }).1
        (some c2))).2 = some (inst.name ++ "/clusters/" ++ c1) ∧
    Backup.name (Backup.set_cluster
        (Backup.parent { backup_id := bid, _instance := inst, _cluster := some c1 }).1
        (some c2)) =
      Except.ok (inst.name ++ "/clusters/" ++ c2 ++ "/backups/" ++ bid) ∧
    (Backup.source_table { backup_id := bid, _instance := inst, table_id := some t1 }).2 =
      some (inst.name ++ "/tables/" ++ t1) ∧
    (Backup.source_table { (Backup.source_table { backup_id := bid, _instance := inst, table_id := some t1 }).1 with table_id := some t2 }).2 =
      some (inst.name ++ "/tables/" ++ t1) := by
  have e1 : c1.data ≠ [] := string_data_ne_nil_of_ne c1 hc1
  have e2 : c2.data ≠ [] := string_data_ne_nil_of_ne c2 hc2
  have e3 : t1.data ≠ [] := string_data_ne_nil_of_ne t1 ht1
  have e4 : (inst.name ++ "/clusters/" ++ c1).data ≠ [] :=
    append_data_ne_nil _ _ (append_data_ne_nil _ _ (instance_name_data_ne_nil inst))
  have e5 : (inst.name ++ "/tables/" ++ t1).data ≠ [] :=
    append_data_ne_nil _ _ (append_data_ne_nil _ _ (instance_name_data_ne_nil inst))
  refine ⟨?_, ?_, ?_, ?_, ?_⟩
  · simp [Backup.parent, truthyStr, e1]
  · simp [Backup.parent, Backup.set_cluster, truthyStr, e1, e2, e4]
  · simp [Backup.parent, Backup.set_cluster, Backup.name, truthyStr, e1, e2]
  · simp [Backup.source_table, truthyStr, e3]
  · simp [Backup.source_table, truthyStr, e3, e5]

/-- C10 witness: the scenario at the concrete tuple
`("p", "i1", "b1", "c1", "c2", "t1", "t2")`. -/
theorem c10_lazy_caches_never_invalidated_witness :
    (Backup.parent { backup_id := "b1", _instance := ⟨"i1", ⟨"p"⟩⟩, _cluster := some "c1" }).2 =
      some (Instance.name ⟨"i1", ⟨"p"⟩⟩ ++ "/clusters/" ++ "c1") ∧
    (Backup.parent (Backup.set_cluster
        (Backup.parent { backup_id := "b1", _instance := ⟨"i1", ⟨"p"⟩⟩, _cluster := some "c1" }).1
        (some "c2"))).2 = some (Instance.name ⟨"i1", ⟨"p"⟩⟩ ++ "/clusters/" ++ "c1") ∧
    Backup.name (Backup.set_cluster
        (Backup.parent { backup_id := "b1", _instance := ⟨"i1", ⟨"p"⟩⟩, _cluster := some "c1" }).1
        (some "c2")) =
      Except.ok (Instance.name ⟨"i1", ⟨"p"⟩⟩ ++ "/clusters/" ++ "c2" ++ "/backups/" ++ "b1") ∧
    (Backup.source_table { backup_id := "b1", _instance := ⟨"i1", ⟨"p"⟩⟩, table_id := some "t1" }).2 =
      some (Instance.name ⟨"i1", ⟨"p"⟩⟩ ++ "/tables/" ++ "t1") ∧
    (Backup.source_table { (Backup.source_table { backup_id := "b1", _instance := ⟨"i1", ⟨"p"⟩⟩, table_id := some "t1" }).1 with table_id := some "t2" }).2 =
      some (Instance.name ⟨"i1", ⟨"p"⟩⟩ ++ "/tables/" ++ "t1") :=
  c10_lazy_caches_never_invalidated ⟨"i1", ⟨"p"⟩⟩ "b1" "c1" "c2" "t1" "t2"
    (by decide) (by decide) (by decide)
